import Mathlib

/-!
Verification of the crypto-volatility-forecast dashboard (src/app.py).

The app loads a CSV of precomputed volatility forecasts, filters it by a
date range chosen in the sidebar, computes RMSE metrics for two models,
and renders an overlay chart, two error histograms and a data table.

We shallowly embed the pipeline:
  * a `Record` is one row of the loaded dataframe (dates already parsed);
    volatility cells are `Option ℚ`, where `none` models a missing value
    (`NaN`) in the float column;
  * `filterEngine` embeds the date-range mask of app.py lines 65-66;
  * `mseCode` / `rmseCode` embed the RMSE computation of lines 82-83,
    with pandas semantics: elementwise subtraction propagates `NaN`
    (`none`) and `Series.mean` skips `NaN` entries, returning `NaN`
    (`none`) when no entry is valid;
  * `improvementCode` embeds line 84, including Python float semantics
    at `NaN` (`NaN != 0` is `True`, and arithmetic on `NaN` yields `NaN`);
  * `overlayChart` embeds the trace construction of lines 100-129;
  * `errorHistView` and `tableView` embed lines 148-169 and 176-180;
  * `loadData` embeds `load_data` plus its `try/except` wrapper
    (lines 31-41): a missing file is caught and reported, a missing
    `Date` column makes `read_csv(..., parse_dates=['Date'])` raise an
    uncaught `ValueError`, and an unparsable date value makes
    `pd.to_datetime` (default `errors='raise'`) raise uncaught;
  * `renderPass` embeds one top-to-bottom execution of the script.
-/

namespace App

/-- One row of the loaded dataframe.  `date` is the parsed calendar date
(encoded as an integer day number); the three volatility cells are
`Option ℚ`, with `none` standing for a missing (`NaN`) value. -/
structure Record where
  date : Int
  actual : Option ℚ
  garch : Option ℚ
  pred : Option ℚ
deriving DecidableEq, Repr

/-- The loaded forecast table: the rows of the dataframe in file order. -/
abbrev Table := List Record

/-- The inclusive date range picked by the sidebar slider (line 52). -/
structure DateRange where
  start_date : Int
  end_date : Int
deriving DecidableEq, Repr

/-- The boolean mask of app.py line 65:
`(df['Date'].dt.date >= start_date) & (df['Date'].dt.date <= end_date)`. -/
def inRange (R : DateRange) (r : Record) : Bool :=
  decide (R.start_date ≤ r.date) && decide (r.date ≤ R.end_date)

/-- `df_filtered = df.loc[mask]` (app.py line 66): keep exactly the rows
satisfying the mask, in source order. -/
def filterEngine (t : Table) (R : DateRange) : Table :=
  t.filter (inRange R)

/-! ## Metrics (app.py lines 76-92) -/

/-- Pandas elementwise subtraction of two float cells: `NaN` (here `none`)
propagates through arithmetic. -/
def subOpt : Option ℚ → Option ℚ → Option ℚ
  | some a, some b => some (a - b)
  | _, _ => none

/-- Pandas elementwise squaring of a float cell; `NaN` propagates. -/
def sqOpt : Option ℚ → Option ℚ
  | some a => some (a ^ 2)
  | none => none

/-- `Series.mean()` with pandas semantics: `NaN` entries are skipped; the
mean of the remaining entries is returned, or `NaN` (`none`) when no valid
entry remains. -/
def seriesMean (xs : List (Option ℚ)) : Option ℚ :=
  let vals := xs.filterMap id
  if vals.isEmpty then none else some (vals.sum / vals.length)

/-- The mean squared error as app.py computes it for one model column
(lines 82-83 without the final square root):
`((actual - pred) ** 2).mean()` over the filtered subset, where `proj`
selects the model's prediction column. -/
def mseCode (subset : Table) (proj : Record → Option ℚ) : Option ℚ :=
  seriesMean ((subset.map fun r => subOpt r.actual (proj r)).map sqOpt)

/-- RMSE as app.py computes it: `mse ** 0.5` (lines 82-83).  `NaN ** 0.5`
is `NaN`, hence the `Option.map`. -/
noncomputable def rmseCode (subset : Table) (proj : Record → Option ℚ) :
    Option ℝ :=
  Option.map (fun q : ℚ => Real.sqrt (q : ℝ)) (mseCode subset proj)

/-- Spec-side helper: the (actual, prediction) pairs of the records where
both the actual value and the model's prediction are present. -/
def presentPairs (subset : Table) (proj : Record → Option ℚ) :
    List (ℚ × ℚ) :=
  subset.filterMap fun r =>
    match r.actual, proj r with
    | some a, some p => some (a, p)
    | _, _ => none

/-- Spec-side mean squared error: the mean of `(actual - predicted)^2`
taken over exactly the records where both values are present, undefined
when no such record exists.  Written from the spec sentence, to be
compared against `mseCode`. -/
def mseSpec (subset : Table) (proj : Record → Option ℚ) : Option ℚ :=
  let ps := presentPairs subset proj
  if ps.isEmpty then none
  else some ((ps.map fun p => (p.1 - p.2) ^ 2).sum / ps.length)

/-- Line 84 of app.py:
`improvement = (rmse_garch - rmse_lstm) / rmse_garch * 100 if rmse_garch != 0 else 0`,
with Python float semantics at `NaN`: `NaN != 0` is `True`, and arithmetic
involving `NaN` produces `NaN` (`none`). -/
noncomputable def improvementCode (rg rl : Option ℝ) : Option ℝ :=
  match rg with
  | none => none
  | some x =>
    if x = 0 then some 0
    else
      match rl with
      | none => none
      | some y => some ((x - y) / x * 100)

/-- The metric summary row (app.py lines 80-92): three `st.info`
placeholders when the filtered subset is empty, otherwise the two RMSE
values and the improvement percentage. -/
inductive MetricsView where
  | noData
  | computed (rg rl imp : Option ℝ)

/-- The guarded metric computation of app.py lines 80-92. -/
noncomputable def metricsView (subset : Table) : MetricsView :=
  if subset.isEmpty then .noData
  else
    .computed (rmseCode subset (fun r => r.garch))
      (rmseCode subset (fun r => r.pred))
      (improvementCode (rmseCode subset (fun r => r.garch))
        (rmseCode subset (fun r => r.pred)))

/-! ## Charts, histograms and table (app.py lines 100-180) -/

/-- One plotly trace: a named line with its (date, value) points. -/
structure Series where
  name : String
  points : List (Int × Option ℚ)
deriving DecidableEq, Repr

/-- The actual-volatility trace (app.py lines 103-109). -/
def actualSeries (subset : Table) : Series :=
  ⟨"Actual Volatility", subset.map fun r => (r.date, r.actual)⟩

/-- The GARCH trace (app.py lines 113-119). -/
def garchSeries (subset : Table) : Series :=
  ⟨"GARCH Forecast", subset.map fun r => (r.date, r.garch)⟩

/-- The hybrid LSTM+GARCH trace (app.py lines 123-129). -/
def lstmSeries (subset : Table) : Series :=
  ⟨"LSTM+GARCH Forecast", subset.map fun r => (r.date, r.pred)⟩

/-- Toggle state of the two sidebar checkboxes (app.py lines 61-62). -/
structure Toggles where
  show_garch : Bool
  show_lstm : Bool
deriving DecidableEq, Repr

/-- The traces of the overlay figure, in the order app.py adds them
(lines 100-129): the actual series always, then the GARCH series when its
checkbox is on, then the hybrid series when its checkbox is on. -/
def overlayChart (subset : Table) (tg : Toggles) : List Series :=
  [actualSeries subset]
    ++ (if tg.show_garch then [garchSeries subset] else [])
    ++ (if tg.show_lstm then [lstmSeries subset] else [])

/-- What one rendered widget of the page is: an `st.info` placeholder, a
plotly chart, a pair of error histograms, or a dataframe. -/
inductive ViewOutput where
  | infoPlaceholder (msg : String)
  | chartOutput (series : List Series)
  | histOutput (garchResiduals lstmResiduals : List (Option ℚ)) (nbins : Nat)
  | tableOutput (rows : Table)
deriving DecidableEq, Repr

/-- Whether a widget is an informational placeholder (`st.info`). -/
def ViewOutput.isPlaceholder : ViewOutput → Bool
  | .infoPlaceholder _ => true
  | _ => false

/-- The overlay-chart widget.  App.py builds and renders `fig`
unconditionally (lines 100-139): there is no empty-subset guard here. -/
def overlayView (subset : Table) (tg : Toggles) : ViewOutput :=
  .chartOutput (overlayChart subset tg)

/-- The error-distribution widget (app.py lines 148-169): two histograms
of the residuals `actual - model` with 30 bins when the subset is
non-empty, an informational placeholder otherwise. -/
def errorHistView (subset : Table) : ViewOutput :=
  if subset.isEmpty then
    .infoPlaceholder "No data in selected date range to display error distribution."
  else
    .histOutput (subset.map fun r => subOpt r.actual r.garch)
      (subset.map fun r => subOpt r.actual r.pred) 30

/-- The data-table widget (app.py lines 176-180): `st.dataframe` over the
filtered rows, rendered unconditionally. -/
def tableView (subset : Table) : ViewOutput :=
  .tableOutput subset

/-! ## Loading (app.py lines 31-41) -/

/-- One cell of the CSV `Date` column: either a value `pd.to_datetime`
parses to the calendar date `d`, or an unparsable value. -/
inductive DateCell where
  | valid (d : Int)
  | invalid
deriving DecidableEq, Repr

/-- One data row of the CSV file. -/
structure CsvRow where
  dateCell : DateCell
  actual : Option ℚ
  garch : Option ℚ
  pred : Option ℚ
deriving DecidableEq, Repr

/-- The CSV file: which of the four expected columns are present, and the
rows.  (Cells of an absent column are simply never read.) -/
structure CsvSource where
  hasDate : Bool
  hasActual : Bool
  hasGarch : Bool
  hasPred : Bool
  rows : List CsvRow
deriving DecidableEq, Repr

/-- The load source: the file is either absent or a readable CSV. -/
inductive Source where
  | missing
  | csv (s : CsvSource)
deriving DecidableEq, Repr

/-- The dataframe `load_data` returns: which volatility columns exist,
and the rows with their parsed dates. -/
structure Frame where
  hasActual : Bool
  hasGarch : Bool
  hasPred : Bool
  rows : List Record
deriving DecidableEq, Repr

/-- Outcome of lines 31-41: the loaded frame, or the caught
`FileNotFoundError` branch (`st.error` message followed by `st.stop`), or
an exception no handler catches. -/
inductive LoadOutcome where
  | ok (f : Frame)
  | dataNotFoundMessage (msg : String)
  | uncaught
deriving DecidableEq, Repr

/-- `pd.to_datetime(df['Date'])` with default `errors` raises on the
first unparsable value; otherwise every row keeps its parsed date. -/
def parseDates (rows : List CsvRow) : Option (List Record) :=
  if rows.any (fun r => r.dateCell = .invalid) then none
  else
    some (rows.filterMap fun r =>
      match r.dateCell with
      | .valid d => some ⟨d, r.actual, r.garch, r.pred⟩
      | .invalid => none)

/-- `load_data` plus its `try/except` wrapper (app.py lines 31-41):
a missing file raises `FileNotFoundError`, which is caught and turned
into an error message plus `st.stop`; a CSV without a `Date` column makes
`read_csv(..., parse_dates=['Date'])` raise an uncaught `ValueError`; an
unparsable date cell makes `pd.to_datetime` raise uncaught; otherwise the
frame is returned with whatever volatility columns the CSV has — no
column check exists anywhere in `load_data`. -/
def loadData : Source → LoadOutcome
  | .missing =>
      .dataNotFoundMessage "Data file not found. Please ensure it is in the same directory as the app."
  | .csv s =>
      if s.hasDate = false then .uncaught
      else
        match parseDates s.rows with
        | none => .uncaught
        | some rs => .ok ⟨s.hasActual, s.hasGarch, s.hasPred, rs⟩

/-! ## One render pass (the whole script, top to bottom) -/

/-- The result of one run of the script: the caught load-error branch
(only the error message renders, `st.stop` halts everything after it), an
uncaught exception (the run dies with a traceback, rendering none of the
widgets), or the full page. -/
inductive RenderResult where
  | loadErrorOnly (msg : String)
  | crashed
  | page (metrics : MetricsView) (overlay : ViewOutput)
      (errHist : ViewOutput) (dataTable : ViewOutput)

/-- One top-to-bottom execution of app.py for a given source, slider
range and checkbox state: load (lines 31-41), filter (lines 65-66),
metrics (lines 80-92), overlay chart (lines 100-139), error histograms
(lines 148-169), data table (lines 176-180).  Accessing a volatility
column that the CSV lacks (first done at lines 76-78) raises an uncaught
`KeyError`. -/
noncomputable def renderPass (src : Source) (R : DateRange) (tg : Toggles) :
    RenderResult :=
  match loadData src with
  | .dataNotFoundMessage msg => .loadErrorOnly msg
  | .uncaught => .crashed
  | .ok f =>
      if f.hasActual && f.hasGarch && f.hasPred then
        let s := filterEngine f.rows R
        .page (metricsView s) (overlayView s tg) (errorHistView s)
          (tableView s)
      else .crashed

/-! ## Sample inputs (used to instantiate the theorems) -/

/-- A ten-row table with dates 1..10, as in the spec's filter scenario. -/
def t10 : Table :=
  [⟨1, some 1, some 1, some 1⟩, ⟨2, some 1, some 1, some 1⟩,
   ⟨3, some 1, some 1, some 1⟩, ⟨4, some 1, some 1, some 1⟩,
   ⟨5, some 1, some 1, some 1⟩, ⟨6, some 1, some 1, some 1⟩,
   ⟨7, some 1, some 1, some 1⟩, ⟨8, some 1, some 1, some 1⟩,
   ⟨9, some 1, some 1, some 1⟩, ⟨10, some 1, some 1, some 1⟩]

/-- The range [3, 5] inside `t10`. -/
def R35 : DateRange := ⟨3, 5⟩

/-- The spec's metric scenario: actual = [1,2,3], garch = [1,2,3],
hybrid = [2,3,4], so `rmse_garch = 0` and `rmse_lstm = 1`. -/
def t3 : Table :=
  [⟨1, some 1, some 1, some 2⟩, ⟨2, some 2, some 2, some 3⟩,
   ⟨3, some 3, some 3, some 4⟩]

/-- The full range of `t3`. -/
def R13 : DateRange := ⟨1, 3⟩

/-- A one-row table whose single date is 0. -/
def tOne : Table := [⟨0, some 1, some 1, some 1⟩]

/-- A range that matches no row of `tOne`. -/
def Rmiss : DateRange := ⟨1, 2⟩

/-- A well-formed CSV: all four columns, one row, parsable date. -/
def csvOkAll : CsvSource :=
  ⟨true, true, true, true, [⟨.valid 5, some 1, some 2, some 3⟩]⟩

/-- A CSV missing the required `Actual_Volatility` column. -/
def csvNoActual : CsvSource :=
  ⟨true, false, true, true, [⟨.valid 0, none, some 1, some 2⟩]⟩

/-- A CSV with all columns but one unparsable date cell. -/
def csvBadDate : CsvSource :=
  ⟨true, true, true, true,
   [⟨.valid 0, some 1, some 1, some 1⟩, ⟨.invalid, some 2, some 2, some 2⟩]⟩

/-! ## Theorems -/

/-- C1: for every table and every DateRange with `start_date ≤ end_date`
lying within the table's [min_date, max_date], the filter returns exactly
the records whose date `d` satisfies `start_date ≤ d ≤ end_date`
(inclusive on both ends), preserves the source order (the result is a
sublist of the source), and returns the empty subset rather than failing
when no record matches. -/
theorem filterEngine_inclusive_range (t : Table) (R : DateRange)
    (hle : R.start_date ≤ R.end_date)
    (hmin : Option.all (fun dm => decide (dm ≤ R.start_date))
      ((t.map fun r => r.date).min?) = true)
    (hmax : Option.all (fun dM => decide (R.end_date ≤ dM))
      ((t.map fun r => r.date).max?) = true) :
    (∀ r, r ∈ filterEngine t R ↔
      r ∈ t ∧ R.start_date ≤ r.date ∧ r.date ≤ R.end_date)
    ∧ List.Sublist (filterEngine t R) t
    ∧ ((∀ r ∈ t, ¬(R.start_date ≤ r.date ∧ r.date ≤ R.end_date)) →
        filterEngine t R = []) := by
  refine ⟨fun r => ?_, List.filter_sublist t, fun h => ?_⟩
  · simp [filterEngine, inRange, and_assoc]
  · rw [filterEngine, List.filter_eq_nil_iff]
    intro a ha
    simp only [inRange, Bool.and_eq_true, decide_eq_true_eq]
    exact fun hc => h a ha ⟨hc.1, hc.2⟩

/-- C1 witness: the spec scenario — ten rows with dates 1..10 and the
range [3, 5] select exactly the three rows with dates 3, 4, 5, in order. -/
theorem filterEngine_inclusive_range_witness :
    (R35.start_date ≤ R35.end_date
      ∧ Option.all (fun dm => decide (dm ≤ R35.start_date))
          ((t10.map fun r => r.date).min?) = true
      ∧ Option.all (fun dM => decide (R35.end_date ≤ dM))
          ((t10.map fun r => r.date).max?) = true)
    ∧ (∀ r, r ∈ filterEngine t10 R35 ↔
        r ∈ t10 ∧ R35.start_date ≤ r.date ∧ r.date ≤ R35.end_date)
    ∧ List.Sublist (filterEngine t10 R35) t10
    ∧ ((∀ r ∈ t10, ¬(R35.start_date ≤ r.date ∧ r.date ≤ R35.end_date)) →
        filterEngine t10 R35 = []) :=
  ⟨⟨by decide, by decide, by decide⟩,
    filterEngine_inclusive_range t10 R35 (by decide) (by decide) (by decide)⟩

/-- C10: filtering is idempotent — applying the same date-range mask to
an already-filtered result returns the same records in the same order. -/
theorem filterEngine_idempotent (t : Table) (R : DateRange) :
    filterEngine (filterEngine t R) R = filterEngine t R := by
  unfold filterEngine
  exact List.filter_eq_self.mpr fun a ha => (List.mem_filter.mp ha).2

/-- C5: when the filtered subset is empty, the metric row is the "no
data" placeholder state (the three `st.info` boxes); no RMSE or
improvement computation happens, and the (total) function cannot raise. -/
theorem metricsView_empty_noData (t : Table) (R : DateRange)
    (h : filterEngine t R = []) :
    metricsView (filterEngine t R) = MetricsView.noData := by
  rw [h]; rfl

/-- C5 witness: the one-row table and a disjoint range produce an empty
subset, and the metric row degrades to the placeholder state. -/
theorem metricsView_empty_noData_witness :
    filterEngine tOne Rmiss = []
    ∧ metricsView (filterEngine tOne Rmiss) = MetricsView.noData :=
  ⟨by decide, metricsView_empty_noData tOne Rmiss (by decide)⟩

/-- Helper: the valid entries of the squared-difference series are, in
order, the squared differences of the pairwise-present records. -/
theorem squares_filterMap (subset : Table) (proj : Record → Option ℚ) :
    ((subset.map fun r => subOpt r.actual (proj r)).map sqOpt).filterMap id
      = (presentPairs subset proj).map fun p => (p.1 - p.2) ^ 2 := by
  induction subset with
  | nil => rfl
  | cons r rs ih =>
    rcases ha : r.actual with _ | a <;> rcases hp : proj r with _ | p <;>
      simp [presentPairs, List.filterMap_cons, subOpt, sqOpt, ha, hp] <;>
      simpa [presentPairs] using ih

/-- Helper: the code's pandas-style mean of squared differences (NaN
propagation through arithmetic, NaN skipped by `mean`) coincides with the
spec's mean over the pairwise-present records. -/
theorem mseCode_eq_mseSpec (subset : Table) (proj : Record → Option ℚ) :
    mseCode subset proj = mseSpec subset proj := by
  rw [mseCode, mseSpec, seriesMean]
  simp only [squares_filterMap subset proj]
  rcases hps : presentPairs subset proj with _ | ⟨p, ps⟩
  · rfl
  · simp

/-- C2: on every non-empty filtered subset, the RMSE the code computes
for each model is the square root of the mean of `(actual − predicted)^2`
over exactly the records where both the actual value and that model's
prediction are present (pairwise per metric); and on the empty subset the
metric row is the "no data" placeholder instead. -/
theorem rmse_pairwise_present (t : Table) (R : DateRange)
    (h : filterEngine t R ≠ []) :
    rmseCode (filterEngine t R) (fun r => r.garch)
      = Option.map (fun q : ℚ => Real.sqrt (q : ℝ))
          (mseSpec (filterEngine t R) (fun r => r.garch))
    ∧ rmseCode (filterEngine t R) (fun r => r.pred)
      = Option.map (fun q : ℚ => Real.sqrt (q : ℝ))
          (mseSpec (filterEngine t R) (fun r => r.pred))
    ∧ metricsView [] = MetricsView.noData := by
  refine ⟨?_, ?_, rfl⟩ <;> rw [rmseCode, mseCode_eq_mseSpec]

/-- C2 witness: on the three-row scenario table under its full range, the
code RMSE agrees with the pairwise specification form. -/
theorem rmse_pairwise_present_witness :
    filterEngine t3 R13 ≠ []
    ∧ (rmseCode (filterEngine t3 R13) (fun r => r.garch)
        = Option.map (fun q : ℚ => Real.sqrt (q : ℝ))
            (mseSpec (filterEngine t3 R13) (fun r => r.garch))
      ∧ rmseCode (filterEngine t3 R13) (fun r => r.pred)
        = Option.map (fun q : ℚ => Real.sqrt (q : ℝ))
            (mseSpec (filterEngine t3 R13) (fun r => r.pred))
      ∧ metricsView [] = MetricsView.noData) :=
  ⟨by decide, rmse_pairwise_present t3 R13 (by decide)⟩

/-- C3: on every non-empty filtered subset whose two RMSE values are the
(non-`NaN`) reals `x` and `y`, the improvement metric is
`(x − y) / x * 100` when `x ≠ 0`, and exactly `0` when `x = 0` — by the
explicit zero-division policy of line 84, with no fault. -/
theorem improvement_zero_division_policy (t : Table) (R : DateRange)
    (h : filterEngine t R ≠ []) (x y : ℝ)
    (hg : rmseCode (filterEngine t R) (fun r => r.garch) = some x)
    (hl : rmseCode (filterEngine t R) (fun r => r.pred) = some y) :
    (x ≠ 0 →
      metricsView (filterEngine t R)
        = MetricsView.computed (some x) (some y) (some ((x - y) / x * 100)))
    ∧ (x = 0 →
      metricsView (filterEngine t R)
        = MetricsView.computed (some x) (some y) (some 0)) := by
  have hne : (filterEngine t R).isEmpty = false := by
    rcases hfe : filterEngine t R with _ | _
    · exact absurd hfe h
    · rfl
  constructor <;> intro hx <;>
    simp [metricsView, hne, hg, hl, improvementCode, hx]

/-- C3 witness: the spec scenario (actual = [1,2,3], garch = [1,2,3],
hybrid = [2,3,4]) gives `rmse_garch = 0`, `rmse_lstm = 1`, and the
improvement is reported as exactly 0 by the zero-division policy. -/
theorem improvement_zero_division_policy_witness :
    filterEngine t3 R13 ≠ []
    ∧ metricsView (filterEngine t3 R13)
        = MetricsView.computed (some 0) (some 1) (some 0) := by
  have hfe : filterEngine t3 R13 = t3 := by decide
  have hg : rmseCode (filterEngine t3 R13) (fun r => r.garch) = some 0 := by
    have h0 : mseCode t3 (fun r => r.garch) = some 0 := by
      norm_num [mseCode, seriesMean, t3, subOpt, sqOpt, List.filterMap_cons]
    rw [rmseCode, hfe, h0]
    simp
  have hl : rmseCode (filterEngine t3 R13) (fun r => r.pred) = some 1 := by
    have h1 : mseCode t3 (fun r => r.pred) = some 1 := by
      norm_num [mseCode, seriesMean, t3, subOpt, sqOpt, List.filterMap_cons]
    rw [rmseCode, hfe, h1]
    simp
  exact ⟨by decide,
    (improvement_zero_division_policy t3 R13 (by decide) 0 1 hg hl).2 rfl⟩

/-- Helper: the GARCH trace is never the actual-volatility trace (their
legend names differ). -/
theorem garchSeries_ne_actualSeries (s u : Table) :
    garchSeries s ≠ actualSeries u := by
  intro h
  have h2 : "GARCH Forecast" = "Actual Volatility" := congrArg Series.name h
  exact absurd h2 (by decide)

/-- Helper: the hybrid trace is never the actual-volatility trace. -/
theorem lstmSeries_ne_actualSeries (s u : Table) :
    lstmSeries s ≠ actualSeries u := by
  intro h
  have h2 : "LSTM+GARCH Forecast" = "Actual Volatility" := congrArg Series.name h
  exact absurd h2 (by decide)

/-- Helper: the hybrid trace is never the GARCH trace. -/
theorem lstmSeries_ne_garchSeries (s u : Table) :
    lstmSeries s ≠ garchSeries u := by
  intro h
  have h2 : "LSTM+GARCH Forecast" = "GARCH Forecast" := congrArg Series.name h
  exact absurd h2 (by decide)

/-- C4: for every filtered subset and toggle pair, the overlay figure
always contains the actual-volatility trace, contains the GARCH trace iff
`show_garch`, and contains the hybrid trace iff `show_lstm`; with both
toggles off it contains only the actual-volatility trace; and each trace
lists its (date, value) pairs in subset order. -/
theorem overlayChart_toggle_membership (subset : Table) (tg : Toggles) :
    actualSeries subset ∈ overlayChart subset tg
    ∧ (garchSeries subset ∈ overlayChart subset tg ↔ tg.show_garch = true)
    ∧ (lstmSeries subset ∈ overlayChart subset tg ↔ tg.show_lstm = true)
    ∧ overlayChart subset ⟨false, false⟩ = [actualSeries subset]
    ∧ (actualSeries subset).points = subset.map (fun r => (r.date, r.actual))
    ∧ (garchSeries subset).points = subset.map (fun r => (r.date, r.garch))
    ∧ (lstmSeries subset).points = subset.map (fun r => (r.date, r.pred)) := by
  obtain ⟨g, l⟩ := tg
  refine ⟨?_, ?_, ?_, rfl, rfl, rfl, rfl⟩ <;>
    cases g <;> cases l <;>
      simp [overlayChart, garchSeries_ne_actualSeries,
        lstmSeries_ne_actualSeries, lstmSeries_ne_garchSeries,
        (garchSeries_ne_actualSeries subset subset).symm,
        (lstmSeries_ne_actualSeries subset subset).symm,
        (lstmSeries_ne_garchSeries subset subset).symm]

/-- C6 counterexample: on an empty filter result the overlay chart and
the data table are NOT informational placeholders — app.py builds and
renders both unconditionally (lines 100-139 and 176-180), so the claim
that every downstream view degrades to a placeholder is false. -/
theorem empty_state_chart_table_not_placeholder :
    filterEngine tOne Rmiss = []
    ∧ ViewOutput.isPlaceholder
        (overlayView (filterEngine tOne Rmiss) ⟨true, true⟩) = false
    ∧ ViewOutput.isPlaceholder (tableView (filterEngine tOne Rmiss)) = false := by
  decide

/-- C6 amended: when the filter result is empty, the metric row and the
error-distribution section degrade to informational placeholders, while
the overlay chart is still rendered as a (contentless) chart over the
empty subset and the data table is still rendered as the empty table —
neither of those two becomes a placeholder. -/
theorem empty_state_partial_placeholders (t : Table) (R : DateRange)
    (tg : Toggles) (h : filterEngine t R = []) :
    metricsView (filterEngine t R) = MetricsView.noData
    ∧ errorHistView (filterEngine t R)
        = ViewOutput.infoPlaceholder
            "No data in selected date range to display error distribution."
    ∧ overlayView (filterEngine t R) tg
        = ViewOutput.chartOutput (overlayChart [] tg)
    ∧ tableView (filterEngine t R) = ViewOutput.tableOutput []
    ∧ ViewOutput.isPlaceholder (overlayView (filterEngine t R) tg) = false
    ∧ ViewOutput.isPlaceholder (tableView (filterEngine t R)) = false := by
  rw [h]
  exact ⟨rfl, rfl, rfl, rfl, rfl, rfl⟩

/-- C6 amended witness: the one-row table with a disjoint range shows the
split behaviour on a concrete empty selection. -/
theorem empty_state_partial_placeholders_witness :
    filterEngine tOne Rmiss = []
    ∧ (metricsView (filterEngine tOne Rmiss) = MetricsView.noData
      ∧ errorHistView (filterEngine tOne Rmiss)
          = ViewOutput.infoPlaceholder
              "No data in selected date range to display error distribution."
      ∧ overlayView (filterEngine tOne Rmiss) ⟨true, true⟩
          = ViewOutput.chartOutput (overlayChart [] ⟨true, true⟩)
      ∧ tableView (filterEngine tOne Rmiss) = ViewOutput.tableOutput []
      ∧ ViewOutput.isPlaceholder
          (overlayView (filterEngine tOne Rmiss) ⟨true, true⟩) = false
      ∧ ViewOutput.isPlaceholder (tableView (filterEngine tOne Rmiss)) = false) :=
  ⟨by decide,
    empty_state_partial_placeholders tOne Rmiss ⟨true, true⟩ (by decide)⟩

/-- C7 counterexample: a CSV that lacks the required `Actual_Volatility`
column loads successfully — `load_data` performs no schema validation, so
the claimed `SchemaError` failure does not happen. -/
theorem loadData_missing_column_ok :
    loadData (Source.csv csvNoActual)
      = LoadOutcome.ok ⟨false, true, true, [⟨0, none, some 1, some 2⟩]⟩ := by
  decide

/-- C7 amended: a missing source is caught and reported as the
data-not-found error message; a CSV without a `Date` column makes the
load die with an uncaught exception (there is no `SchemaError`); and a
CSV with a `Date` column whose dates all parse loads successfully no
matter which volatility columns are absent. -/
theorem loadData_error_behavior (s : CsvSource) :
    loadData Source.missing
      = LoadOutcome.dataNotFoundMessage
          "Data file not found. Please ensure it is in the same directory as the app."
    ∧ (s.hasDate = false → loadData (Source.csv s) = LoadOutcome.uncaught)
    ∧ (s.hasDate = true → (∀ r ∈ s.rows, r.dateCell ≠ DateCell.invalid) →
        loadData (Source.csv s)
          = LoadOutcome.ok ⟨s.hasActual, s.hasGarch, s.hasPred,
              s.rows.filterMap fun r =>
                match r.dateCell with
                | .valid d => some ⟨d, r.actual, r.garch, r.pred⟩
                | .invalid => none⟩) := by
  refine ⟨rfl, fun hd => ?_, fun hd hrows => ?_⟩
  · simp [loadData, hd]
  · have hp : s.rows.any (fun r => r.dateCell = DateCell.invalid) = false := by
      rw [List.any_eq_false]
      intro r hr
      simpa using hrows r hr
    simp [loadData, hd, parseDates, hp]

/-- C7 amended witness: the well-formed one-row CSV loads to the expected
frame, and the missing source yields the data-not-found message. -/
theorem loadData_error_behavior_witness :
    csvOkAll.hasDate = true
    ∧ (∀ r ∈ csvOkAll.rows, r.dateCell ≠ DateCell.invalid)
    ∧ loadData (Source.csv csvOkAll)
        = LoadOutcome.ok ⟨true, true, true, [⟨5, some 1, some 2, some 3⟩]⟩
    ∧ loadData Source.missing
        = LoadOutcome.dataNotFoundMessage
            "Data file not found. Please ensure it is in the same directory as the app." := by
  have h := loadData_error_behavior csvOkAll
  refine ⟨by decide, by decide, ?_, h.1⟩
  rw [h.2.2 rfl (by decide)]
  rfl

/-- C8 counterexample: a CSV with all four columns but one unparsable
date cell makes the load die with an uncaught parse exception — the row
is not dropped, no table is produced, and no warning is emitted. -/
theorem loadData_unparsable_date_uncaught :
    loadData (Source.csv csvBadDate) = LoadOutcome.uncaught := by
  decide

/-- C8 amended: whenever a CSV with a `Date` column contains at least one
row whose date cannot be parsed, `pd.to_datetime` (default `errors`)
raises and no handler catches it: the load fails outright rather than
dropping the offending rows and warning. -/
theorem loadData_raises_on_unparsable (s : CsvSource)
    (hd : s.hasDate = true)
    (hbad : ∃ r ∈ s.rows, r.dateCell = DateCell.invalid) :
    loadData (Source.csv s) = LoadOutcome.uncaught := by
  have hp : s.rows.any (fun r => r.dateCell = DateCell.invalid) = true := by
    rw [List.any_eq_true]
    obtain ⟨r, hr, hre⟩ := hbad
    exact ⟨r, hr, by simpa using hre⟩
  simp [loadData, hd, parseDates, hp]

/-- C8 amended witness: the concrete two-row CSV with one bad date makes
the load fail uncaught. -/
theorem loadData_raises_on_unparsable_witness :
    csvBadDate.hasDate = true
    ∧ (∃ r ∈ csvBadDate.rows, r.dateCell = DateCell.invalid)
    ∧ loadData (Source.csv csvBadDate) = LoadOutcome.uncaught :=
  ⟨by decide, by decide,
    loadData_raises_on_unparsable csvBadDate (by decide) (by decide)⟩

/-- C9: a render pass over a missing source shows only the caught
data-not-found error message and stops: the result is the load-error
state, and in particular it is not a page carrying metrics, charts or a
table. -/
theorem renderPass_missing_loadError (R : DateRange) (tg : Toggles) :
    renderPass Source.missing R tg
      = RenderResult.loadErrorOnly
          "Data file not found. Please ensure it is in the same directory as the app."
    ∧ ∀ m ov eh dt, renderPass Source.missing R tg ≠ RenderResult.page m ov eh dt := by
  refine ⟨rfl, fun m ov eh dt hcontra => ?_⟩
  rw [show renderPass Source.missing R tg
      = RenderResult.loadErrorOnly
          "Data file not found. Please ensure it is in the same directory as the app."
    from rfl] at hcontra
  exact RenderResult.noConfusion hcontra

/-- C9 witness: the load-error state at a concrete range and toggles. -/
theorem renderPass_missing_loadError_witness :
    renderPass Source.missing Rmiss ⟨true, true⟩
      = RenderResult.loadErrorOnly
          "Data file not found. Please ensure it is in the same directory as the app."
    ∧ ∀ m ov eh dt, renderPass Source.missing Rmiss ⟨true, true⟩
        ≠ RenderResult.page m ov eh dt :=
  renderPass_missing_loadError Rmiss ⟨true, true⟩

end App
